import Mathlib

/-!
Verification of the semi-synchronous replication service (`src/app.py`)
of the LAB4_PR repository.

The service is a single-leader key/value store.  The leader commits a write
locally, then runs `replicate_semi_sync`: one synchronous attempt to the
first peer of `SYNC_FOLLOWERS`, then (unless a succeeding sync attempt with
`WRITE_QUORUM == 1` short-circuits) a concurrent fan-out to every peer of
`ASYNC_FOLLOWERS`, whose boolean results are consumed in completion order
until `WRITE_QUORUM - 1` confirmations are reached.

The embedding below is pure.  Per-peer replication outcomes are supplied as
a function `result : String → Bool` (faithful to `replicate_to_follower`,
which always returns a `bool` and never raises), and the completion order of
the asynchronous tasks is supplied as a list `order` of peer addresses.
The Python `IndexError` raised by `SYNC_FOLLOWERS[0]` on an empty sync tier
is modelled by an `Option` result (`none` = unhandled exception).
-/

namespace Lab4

/-- The leader's in-memory `storage` dictionary: a map from key to value. -/
def Store := String → Option String

/-- The empty store the process starts with. -/
def Store.empty : Store := fun _ => none

/-- `storage[key] = value` — unconditional overwrite under the storage lock. -/
def Store.set (s : Store) (key value : String) : Store :=
  fun q => if q = key then some value else s q

/-- `storage.get(key)`. -/
def Store.get (s : Store) (key : String) : Option String := s key

/-- Transport-level outcome of one HTTP replicate call, as seen inside
`replicate_to_follower`: either a response with some status code arrived, or
the call failed with a timeout or a connection error (both surface as
exceptions from the HTTP client). -/
inductive TransportOutcome where
  | ack (statusCode : Nat)
  | timeout
  | connectionFailure
deriving DecidableEq

/-- `replicate_to_follower` (src/app.py lines 49-64), abstracted over the
transport outcome: `return response.status_code == 200` on a response, and
the `except Exception: return False` branch on timeout or connection
failure.  The function is total: no exception escapes it. -/
def replicate_to_follower (outcome : TransportOutcome) : Bool :=
  match outcome with
  | .ack statusCode => statusCode == 200
  | .timeout => false
  | .connectionFailure => false

/-- The per-attempt HTTP timeout of `replicate_to_follower`, in milliseconds
(line 53: `timeout = SYNC_TIMEOUT_MS / 1000.0 if is_sync else 3.0`, with
`SYNC_TIMEOUT_MS = MAX_DELAY` read from the environment at line 30). -/
def attempt_timeout_ms (maxDelay : Nat) (is_sync : Bool) : Nat :=
  if is_sync then maxDelay else 3000

/-- Result of one `replicate_semi_sync` invocation.  `asyncContacted` records
which async-tier peers had a replicate task created for them (the fan-out at
lines 89-92 creates one task per member of `ASYNC_FOLLOWERS`; the early
`break` in the counting loop stops awaiting, not contacting). -/
structure SemiSyncResult where
  success : Bool
  failed_sync_followers : List String
  asyncContacted : List String
deriving DecidableEq

/-- The confirmation-counting loop over the async tier (lines 94-100):
results arrive in completion order; each `True` increments `confirmations`,
and the loop breaks as soon as `confirmations >= WRITE_QUORUM - 1`. -/
def asyncLoop (needed : Nat) : List Bool → Nat → Nat
  | [], confirmations => confirmations
  | r :: rest, confirmations =>
      if r then
        if confirmations + 1 ≥ needed then confirmations + 1
        else asyncLoop needed rest (confirmations + 1)
      else asyncLoop needed rest confirmations

/-- `replicate_semi_sync` (src/app.py lines 65-107).  `result` gives each
peer's `replicate_to_follower` outcome; `order` is the completion order of
the async-tier tasks.  `none` models the unhandled `IndexError` from
`SYNC_FOLLOWERS[0]` when the sync tier is empty. -/
def replicate_semi_sync (syncFollowers asyncFollowers : List String)
    (quorum : Nat) (result : String → Bool) (order : List String) :
    Option SemiSyncResult :=
  match syncFollowers with
  | [] => none
  | s0 :: _ =>
      let sync_success := result s0
      let failed_sync_followers :=
        if sync_success then ([] : List String) else syncFollowers
      if sync_success ∧ quorum = 1 then
        some ⟨true, failed_sync_followers, []⟩
      else if asyncFollowers = [] then
        some ⟨true, failed_sync_followers, []⟩
      else
        let confirmations := asyncLoop (quorum - 1) (order.map result) 0
        if confirmations < quorum - 1 then
          some ⟨false, failed_sync_followers, asyncFollowers⟩
        else
          some ⟨true, failed_sync_followers, asyncFollowers⟩

/-- Client-visible outcome of the `/write` endpoint: the 403 role-mismatch
rejection, a 200 success (carrying the failed-sync-followers warning list),
the 500 quorum-unmet failure, or the internal server error produced by an
unhandled exception inside the handler. -/
inductive WriteResp where
  | roleMismatch
  | success (failed_sync_followers : List String)
  | quorumUnmet (failed_sync_followers : List String)
  | internalError
deriving DecidableEq

/-- The `/write` handler (src/app.py lines 111-139): reject non-leaders,
commit locally, run `replicate_semi_sync`, map its verdict to the response.
Returns the node's store after the request together with the response. -/
def write (isLeader : Bool) (store : Store) (key value : String)
    (syncFollowers asyncFollowers : List String) (quorum : Nat)
    (result : String → Bool) (order : List String) : Store × WriteResp :=
  if !isLeader then (store, .roleMismatch)
  else
    let store' := Store.set store key value
    match replicate_semi_sync syncFollowers asyncFollowers quorum result order with
    | none => (store', .internalError)
    | some r =>
        if r.success then (store', .success r.failed_sync_followers)
        else (store', .quorumUnmet r.failed_sync_followers)

/-- The `/read` handler (src/app.py lines 142-151): the value, or a 404. -/
def read (store : Store) (key : String) : Except Nat String :=
  match Store.get store key with
  | none => Except.error 404
  | some value => Except.ok value

/-- Response of the `/replicate` intake endpoint. -/
inductive ReplicateResp where
  | roleMismatch
  | ack
deriving DecidableEq

/-- The `/replicate` intake handler (src/app.py lines 154-163): reject the
leader, otherwise apply the write to the local store unconditionally. -/
def replicate_intake (isLeader : Bool) (store : Store) (key value : String) :
    Store × ReplicateResp :=
  if isLeader then (store, .roleMismatch)
  else (Store.set store key value, .ack)

/-- The flat-policy confirmation-counting loop: count successes in completion
order, declaring success as soon as the count reaches the quorum target. -/
def flatLoop (needed : Nat) : List Bool → Nat → Nat
  | [], confirmations => confirmations
  | r :: rest, confirmations =>
      if r then
        if confirmations + 1 ≥ needed then confirmations + 1
        else flatLoop needed rest (confirmations + 1)
      else flatLoop needed rest confirmations

/-- Modelled from the spec: the flat-quorum variant of the coordinator is not
under src/ (only the `FOLLOWERS` configuration declaration at src/app.py
line 27 remains of it).  Per the spec's flat policy: replicate to every peer
of `F` concurrently, count confirmations in completion order, succeed as
soon as they reach `Q`, fail once all attempts complete below `Q`; if `F` is
empty, success is vacuous. -/
def replicate_flat (followers : List String) (quorum : Nat)
    (result : String → Bool) (order : List String) : Bool :=
  if followers = [] then true
  else flatLoop quorum (order.map result) 0 ≥ quorum

/-- Modelled from the spec: the write path of the flat-quorum variant —
reject non-leaders, commit locally, then decide by `replicate_flat`. -/
def write_flat (isLeader : Bool) (store : Store) (key value : String)
    (followers : List String) (quorum : Nat)
    (result : String → Bool) (order : List String) : Store × Bool :=
  if !isLeader then (store, false)
  else
    let store' := Store.set store key value
    (store', replicate_flat followers quorum result order)

/-- Helper: on the leader, the local commit happens before replication and is
kept whatever `replicate_semi_sync` returns. -/
theorem write_leader_commits (store : Store) (key value : String)
    (syncFollowers asyncFollowers : List String) (quorum : Nat)
    (result : String → Bool) (order : List String) :
    (write true store key value syncFollowers asyncFollowers quorum result order).1 =
      Store.set store key value := by
  unfold write
  cases replicate_semi_sync syncFollowers asyncFollowers quorum result order with
  | none => rfl
  | some r =>
      by_cases hr : r.success <;> simp [hr]

/-- Claim C1, counterexample: with quorum target 1, a synchronous peer that
fails and an asynchronous peer that would succeed, `replicate_semi_sync`
reports overall success — contradicting the claim that a failed synchronous
attempt makes the write fail regardless of the async tier. -/
theorem claim_C1_counterexample :
    (fun p => p == "a1") "s1" = false ∧
    Option.map SemiSyncResult.success
      (replicate_semi_sync ["s1"] ["a1"] 1 (fun p => p == "a1") ["a1"]) =
        some true := by
  decide

/-- Claim C1, amended: with quorum target 1 a failing synchronous attempt
does not fail the write — `replicate_semi_sync` reports success whatever the
asynchronous tier does, recording the whole sync tier in
`failed_sync_followers`. -/
theorem claim_C1_amended (s0 : String) (rest asyncFollowers : List String)
    (result : String → Bool) (order : List String)
    (h : result s0 = false) :
    Option.map SemiSyncResult.success
      (replicate_semi_sync (s0 :: rest) asyncFollowers 1 result order) =
        some true ∧
    Option.map SemiSyncResult.failed_sync_followers
      (replicate_semi_sync (s0 :: rest) asyncFollowers 1 result order) =
        some (s0 :: rest) := by
  unfold replicate_semi_sync
  by_cases ha : asyncFollowers = [] <;> simp [h, ha, asyncLoop]

/-- Claim C1, witness for the amended statement at a concrete input. -/
theorem claim_C1_amended_witness :
    Option.map SemiSyncResult.success
      (replicate_semi_sync ["s1"] ["a1"] 1 (fun _ => false) ["a1"]) =
        some true ∧
    Option.map SemiSyncResult.failed_sync_followers
      (replicate_semi_sync ["s1"] ["a1"] 1 (fun _ => false) ["a1"]) =
        some ["s1"] :=
  claim_C1_amended "s1" [] ["a1"] (fun _ => false) ["a1"] rfl

/-- Claim C2: when the synchronous attempt succeeds and the quorum target is
1, `replicate_semi_sync` declares success immediately, with no failed sync
peers and with no replicate call issued to any async-tier peer
(`asyncContacted = []`), independently of the async tier's behaviour. -/
theorem claim_C2 (s0 : String) (rest asyncFollowers : List String)
    (result : String → Bool) (order : List String)
    (h : result s0 = true) :
    replicate_semi_sync (s0 :: rest) asyncFollowers 1 result order =
      some ⟨true, [], []⟩ := by
  unfold replicate_semi_sync
  simp [h]

/-- Claim C2, witness at a concrete input with two async peers. -/
theorem claim_C2_witness :
    replicate_semi_sync ["s1"] ["a1", "a2"] 1 (fun _ => true) ["a1", "a2"] =
      some ⟨true, [], []⟩ :=
  claim_C2 "s1" [] ["a1", "a2"] (fun _ => true) ["a1", "a2"] rfl

/-- Claim C3 (flat policy modelled from the spec, the variant being absent
from src/): with an empty follower set, every write on the leader succeeds
and commits locally, regardless of the configured quorum target. -/
theorem claim_C3 (store : Store) (key value : String) (quorum : Nat)
    (result : String → Bool) (order : List String) :
    write_flat true store key value [] quorum result order =
      (Store.set store key value, true) := by
  rfl

/-- Claim C4: `replicate_to_follower` returns `true` exactly on a successful
acknowledgment (HTTP 200) and `false` on every other outcome — non-success
acknowledgment, timeout, or connection failure; being a total function, no
exception escapes it. -/
theorem claim_C4 (outcome : TransportOutcome) :
    replicate_to_follower outcome = true ↔ outcome = .ack 200 := by
  cases outcome <;> simp [replicate_to_follower]

/-- Claim C5: a write on the leader that ends in a quorum-unmet failure
still leaves the leader's store mapping the written key to the written
value — the local commit is never rolled back. -/
theorem claim_C5 (store : Store) (key value : String)
    (syncFollowers asyncFollowers : List String) (quorum : Nat)
    (result : String → Bool) (order : List String) (failed : List String)
    (h : (write true store key value syncFollowers asyncFollowers quorum
        result order).2 = WriteResp.quorumUnmet failed) :
    Store.get (write true store key value syncFollowers asyncFollowers quorum
        result order).1 key = some value := by
  rw [write_leader_commits]
  simp [Store.get, Store.set]

/-- Claim C5, witness: quorum target 3 with a failing sync peer and one
failing async peer yields a quorum-unmet failure, yet the store holds the
written value. -/
theorem claim_C5_witness :
    (write true Store.empty "x" "1" ["s1"] ["a1"] 3 (fun _ => false)
        ["a1"]).2 = WriteResp.quorumUnmet ["s1"] ∧
    Store.get (write true Store.empty "x" "1" ["s1"] ["a1"] 3 (fun _ => false)
        ["a1"]).1 "x" = some "1" :=
  ⟨by decide,
   claim_C5 Store.empty "x" "1" ["s1"] ["a1"] 3 (fun _ => false) ["a1"] ["s1"]
     (by decide)⟩

/-- Claim C6: after a successful write of `(key, value)` on the leader, an
immediate read of `key` on the leader returns `value`. -/
theorem claim_C6 (store : Store) (key value : String)
    (syncFollowers asyncFollowers : List String) (quorum : Nat)
    (result : String → Bool) (order : List String) (failed : List String)
    (h : (write true store key value syncFollowers asyncFollowers quorum
        result order).2 = WriteResp.success failed) :
    read (write true store key value syncFollowers asyncFollowers quorum
        result order).1 key = Except.ok value := by
  rw [write_leader_commits]
  simp [read, Store.get, Store.set]

/-- Claim C6, witness: a concrete successful write followed by a read. -/
theorem claim_C6_witness :
    (write true Store.empty "x" "1" ["s1"] [] 1 (fun _ => true) []).2 =
      WriteResp.success [] ∧
    read (write true Store.empty "x" "1" ["s1"] [] 1 (fun _ => true) []).1
      "x" = Except.ok "1" :=
  ⟨by decide,
   claim_C6 Store.empty "x" "1" ["s1"] [] 1 (fun _ => true) [] [] (by decide)⟩

/-- Claim C7: a write on a non-leader is rejected with a role mismatch and
the store is unchanged; a replicate-intake request on the leader is likewise
rejected with the store unchanged. -/
theorem claim_C7 (store : Store) (key value : String)
    (syncFollowers asyncFollowers : List String) (quorum : Nat)
    (result : String → Bool) (order : List String) :
    write false store key value syncFollowers asyncFollowers quorum result
        order = (store, WriteResp.roleMismatch) ∧
    replicate_intake true store key value = (store, ReplicateResp.roleMismatch) :=
  ⟨rfl, rfl⟩

/-- Claim C8, counterexample: with `MAX_DELAY = 3000` the synchronous-tier
timeout equals the fixed 3000 ms async-tier timeout, so the async timeout is
not strictly longer for every configuration. -/
theorem claim_C8_counterexample :
    ¬ attempt_timeout_ms 3000 true < attempt_timeout_ms 3000 false := by
  decide

/-- Claim C8, amended: for every configuration with `MAX_DELAY` below
3000 ms (the fixed async-tier timeout) — the default is 1000 — the async
timeout is strictly longer than the synchronous-tier timeout. -/
theorem claim_C8_amended (maxDelay : Nat) (h : maxDelay < 3000) :
    attempt_timeout_ms maxDelay true < attempt_timeout_ms maxDelay false := by
  simpa [attempt_timeout_ms] using h

/-- Claim C8, witness for the amended statement at the default
configuration `MAX_DELAY = 1000`. -/
theorem claim_C8_amended_witness :
    attempt_timeout_ms 1000 true < attempt_timeout_ms 1000 false :=
  claim_C8_amended 1000 (by decide)

/-- Claim C9: with a non-empty sync tier and an empty async follower list,
`replicate_semi_sync` returns success, whatever the quorum target and
whether the synchronous attempt succeeded or failed. -/
theorem claim_C9 (s0 : String) (rest : List String) (quorum : Nat)
    (result : String → Bool) (order : List String) :
    Option.map SemiSyncResult.success
      (replicate_semi_sync (s0 :: rest) [] quorum result order) = some true := by
  unfold replicate_semi_sync
  by_cases h : result s0 <;> by_cases hq : quorum = 1 <;> simp [h, hq]

/-- Claim C10: with an empty sync follower list, every write on the leader
ends in the unhandled indexing error (an internal server error, neither a
success nor a role mismatch nor a quorum-unmet failure), and the local
commit has already been applied to the leader's store. -/
theorem claim_C10 (store : Store) (key value : String)
    (asyncFollowers : List String) (quorum : Nat)
    (result : String → Bool) (order : List String) :
    write true store key value [] asyncFollowers quorum result order =
      (Store.set store key value, WriteResp.internalError) ∧
    Store.get (Store.set store key value) key = some value := by
  refine ⟨rfl, ?_⟩
  simp [Store.get, Store.set]

end Lab4
